import Mathlib

/-!
Shallow embedding of the transpiler-installer subsystem of
`databricks/labs/remorph/install.py` (databrickslabs/lakebridge).

Python strings are modelled as `List Char`; Python `None`-or-value results as
`Option`; a Python function that can raise an uncaught exception is modelled
as `Except String` where the error string names the Python exception class.
Filesystem-dependent reads (file existence, JSON parse outcomes, XML parse
outcomes, subprocess results) are modelled as explicit input data describing
the outcome of each external interaction, so every definition is executable.
-/

namespace Remorph

/-! ## VersionState: `TranspilerInstaller.get_installed_version` and
`TranspilerInstaller._store_product_state` (install.py lines 69-79, 140-148).

`get_installed_version` does:
```
if not current_version_path.exists(): return None
text = current_version_path.read_text("utf-8")
data = loads(text)                       -- raises JSONDecodeError on bad JSON
version = data.get("version", None)      -- raises AttributeError if data is not a dict
if not version or not version.startswith("v"): return None
                                         -- raises AttributeError if version is a
                                         -- truthy non-string value
return version[1:]
```
The possible observable states of `state/version.json` are modelled by
`VersionFileRead`; `loads` raising on unparsable content, and attribute
access raising on a non-dict document or a truthy non-string field value,
are part of the Python semantics being embedded. -/

/-- The value found under the `"version"` key of a parsed `version.json`,
classified by how the Python code reacts to it: a string, a falsy
non-string value (`null`, `0`, `[]`, `false` — `not version` is true), or a
truthy non-string value (`.startswith` raises `AttributeError`). -/
inductive VersionFieldValue where
  | str (s : List Char)
  | falsyNonStr
  | truthyNonStr
deriving DecidableEq, Repr

/-- Observable state of the `state/version.json` file as seen by
`get_installed_version`: absent, present but not valid JSON, valid JSON that
is not a dict, or a parsed dict whose `"version"` entry is absent or holds a
`VersionFieldValue`. -/
inductive VersionFileRead where
  | absent
  | unparsable
  | parsedNonDict
  | parsed (version : Option VersionFieldValue)
deriving DecidableEq, Repr

/-- Embedding of `TranspilerInstaller.get_installed_version`
(install.py lines 69-79): `.ok none` means the Python function returns
`None`, `.ok (some s)` means it returns the string `s`, `.error e` means the
named exception propagates to the caller. -/
def get_installed_version : VersionFileRead → Except String (Option (List Char))
  | .absent => .ok none
  | .unparsable => .error "JSONDecodeError"
  | .parsedNonDict => .error "AttributeError"
  | .parsed none => .ok none
  | .parsed (some .falsyNonStr) => .ok none
  | .parsed (some .truthyNonStr) => .error "AttributeError"
  | .parsed (some (.str s)) =>
    if s = [] then .ok none
    else if s.head? = some 'v' then .ok (some (s.drop 1))
    else .ok none

/-- Embedding of `TranspilerInstaller._store_product_state`
(install.py lines 140-148): `state_path.mkdir()` raises `FileExistsError`
when the state directory already exists; otherwise the written file parses
back as a dict whose `"version"` entry is the string `"v" + version`
(the `"date"` entry is irrelevant to reads and omitted). -/
def store_product_state (stateDirExists : Bool) (version : List Char) :
    Except String VersionFileRead :=
  if stateDirExists then .error "FileExistsError"
  else .ok (.parsed (some (.str ('v' :: version))))

/-! ## RegistryClient, Maven variant: version resolution from metadata XML.

`MavenInstaller._extract_latest_release_version` (install.py lines 342-352):
```
root = ET.fromstring(maven_metadata)
for label in ("release", "latest"):
    version = root.findtext(f"./versioning/{label}")
    if version is not None: return version
return root.findtext("./versioning/versions/version[last()]")
```
An `xml.etree.ElementTree` element is a tag, optional text content and an
ordered list of child elements. `findtext(path)` returns the text of the
first element matching the path, with `""` substituted when that element has
no text, and `None` when no element matches; the `[last()]` predicate
selects, within each matching parent, the last child of the given name. -/

/-- An XML element: tag, optional text content, ordered children. -/
inductive XmlElem where
  | mk (tag : String) (text : Option String) (children : List XmlElem)

/-- Tag of an XML element. -/
def XmlElem.tag : XmlElem → String
  | .mk t _ _ => t

/-- Text content of an XML element (`None` when absent). -/
def XmlElem.text : XmlElem → Option String
  | .mk _ tx _ => tx

/-- Children of an XML element, in document order. -/
def XmlElem.children : XmlElem → List XmlElem
  | .mk _ _ cs => cs

/-- The children of `e` whose tag is `t`, in document order. -/
def childrenNamed (e : XmlElem) (t : String) : List XmlElem :=
  e.children.filter (fun c => c.tag = t)

/-- All elements matching a relative child path (`ET` `./a/b/...`
semantics), in document order. -/
def findAll (e : XmlElem) : List String → List XmlElem
  | [] => [e]
  | t :: rest => (childrenNamed e t).flatMap (fun c => findAll c rest)

/-- `ET.Element.findtext` for a relative child path: the text of the first
matching element (`""` when it has no text), `None` when nothing matches. -/
def findtext (e : XmlElem) (path : List String) : Option String :=
  match findAll e path with
  | [] => none
  | el :: _ => some (el.text.getD "")

/-- `root.findtext("./versioning/versions/version[last()]")`: within each
`versioning/versions` element take its last `version` child; return the text
of the first such element, `None` when there is none. -/
def findtextLastVersion (e : XmlElem) : Option String :=
  match (findAll e ["versioning", "versions"]).filterMap
      (fun vs => (childrenNamed vs "version").getLast?) with
  | [] => none
  | el :: _ => some (el.text.getD "")

/-- Embedding of `MavenInstaller._extract_latest_release_version`
(install.py lines 342-352), applied to the already-parsed document root. -/
def extract_latest_release_version (root : XmlElem) : Option String :=
  match findtext root ["versioning", "release"] with
  | some v => some v
  | none =>
    match findtext root ["versioning", "latest"] with
    | some v => some v
    | none => findtextLastVersion root

/-- The metadata document of the spec's "Maven version selection" test:
`<versioning><versions><version>1.0</version><version>2.0</version></versions></versioning>`
under the metadata root, with no `release` or `latest` element. -/
def exampleVersionsOnlyMetadata : XmlElem :=
  .mk "metadata" none
    [.mk "versioning" none
      [.mk "versions" none
        [.mk "version" (some "1.0") [],
         .mk "version" (some "2.0") []]]]

/-- A metadata document with no `release` element and `<latest>3.1</latest>`. -/
def exampleLatestOnlyMetadata : XmlElem :=
  .mk "metadata" none
    [.mk "versioning" none
      [.mk "latest" (some "3.1") [],
       .mk "versions" none [.mk "version" (some "3.0") []]]]

/-! ## RegistryClient, Pypi variant: latest-version lookup.

`PypiInstaller.get_pypi_artifact_version` (install.py lines 153-162):
```
try:
    with request.urlopen(f"https://pypi.org/pypi/{product_name}/json") as server:
        text = server.read()
    data = loads(text)
    return data.get("info", {}).get("version", None)
except HTTPError as e:
    logger.error(...); return None
```
Only `HTTPError` (an HTTP error response such as 404) is caught; a
non-HTTP transport failure (`urlopen` raising a plain `URLError`, e.g. DNS
failure or connection refused) is not, and neither are `loads` raising on a
malformed body nor attribute errors on an unexpected JSON shape. -/

/-- The relevant shapes of the response body: unparsable JSON (`loads`
raises), a JSON document that is not a dict (`.get` raises), a dict whose
`info` entry is present but not a dict (the inner `.get` raises), or a dict
giving `info.version` (`none` covers both a missing `info` entry — the `{}`
default — and an `info` dict without a `version` entry). -/
inductive PypiBody where
  | unparsable
  | parsedNonDict
  | infoNotDict
  | parsed (infoVersion : Option (List Char))
deriving DecidableEq, Repr

/-- Outcome of the `urlopen` call against the PyPI metadata endpoint. -/
inductive PypiFetchOutcome where
  | httpError
  | transportError
  | ok (body : PypiBody)
deriving DecidableEq, Repr

/-- Embedding of `PypiInstaller.get_pypi_artifact_version`
(install.py lines 153-162): `.ok` is a normal return, `.error` names the
exception that propagates to the caller. -/
def get_pypi_artifact_version : PypiFetchOutcome → Except String (Option (List Char))
  | .httpError => .ok none
  | .transportError => .error "URLError"
  | .ok .unparsable => .error "JSONDecodeError"
  | .ok .parsedNonDict => .error "AttributeError"
  | .ok .infoNotDict => .error "AttributeError"
  | .ok (.parsed v) => .ok v

/-! ## RegistryClient, Maven variant: artifact download.

`MavenInstaller.download_artifact_from_maven` (install.py lines 354-377):
```
if target.exists():
    logger.warning("Skipping download ...; target already exists ...")
    return True
url = cls.artifact_url(...)
try:
    path, _ = request.urlretrieve(url)
except URLError as e:
    logger.error(...); return False
move(path, target)
return True
```
The observable effects are recorded in an action trace. -/

/-- Externally observable download actions: the network retrieval and the
move of the temporary file onto the target path. -/
inductive DlAction where
  | retrieved
  | moved
deriving DecidableEq, Repr

/-- Outcome of `request.urlretrieve` on the artifact URL. -/
inductive UrlretrieveOutcome where
  | ok
  | urlError
deriving DecidableEq, Repr

/-- Embedding of `MavenInstaller.download_artifact_from_maven`
(install.py lines 354-377): returns the boolean result together with the
trace of download actions performed. -/
def download_artifact_from_maven (targetExists : Bool) (fetch : UrlretrieveOutcome) :
    Bool × List DlAction :=
  if targetExists then (true, [])
  else
    match fetch with
    | .urlError => (false, [.retrieved])
    | .ok => (true, [.retrieved, .moved])

/-! ## AtomicInstaller: the install/rollback state machine.

`PypiInstaller._install_latest_version` (install.py lines 199-220) and
`MavenInstaller._install_version` (install.py lines 399-423) share the same
backup/prepare/produce/commit-or-rollback shape; the per-engine filesystem
is modelled as the pair of the engine root directory (`<product>`) and the
backup directory (`<product>-saved`), each either absent or holding a
directory content drawn from an arbitrary type `α`. The producer (the
registry-specific population of `lib`) is modelled by its outcome: the
content it leaves in the fresh engine root, tagged by how it finished.
The data-dependent failure modes of each producer are modelled: for the
Pypi variant these are exactly the caught `CalledProcessError`/`ValueError`
(subprocess failure; missing site-packages, `lsp` folder or `config.yml`);
for the Maven variant the caught `KeyError`/`ValueError` and a `False`
download result, but also `ZipFile` raising `BadZipFile` on a malformed
downloaded jar — a plain `Exception` subclass that the
`except (KeyError, ValueError)` clause at install.py line 418 does not
catch, so it propagates without any rollback. OS-level faults (disk full,
permission errors) are outside the embedding. -/

/-- The per-engine filesystem slice: the engine root directory and its
sibling backup directory, each absent or holding content of type `α`. -/
structure FSState (α : Type) where
  root : Option α
  backup : Option α
deriving DecidableEq, Repr

/-- Which path an install call returns on success: the Pypi variant returns
the `lib` directory (`self._install_path`), the Maven variant the engine
root (`self._product_path`). -/
inductive RetPath where
  | libDir
  | rootDir
deriving DecidableEq, Repr

/-- Outcome of the Pypi producer `_unsafe_install_latest_version`
(install.py lines 222-296) on the freshly prepared engine root: success
with the final content (the version record is written by `_post_install`,
its last step), or a raised `CalledProcessError`/`ValueError` leaving some
partial content behind. -/
inductive PypiProducerOutcome (α : Type) where
  | success (content : α)
  | raised (partialContent : α)
deriving DecidableEq, Repr

/-- Outcome of the Maven producer `_unsafe_install_version`
(install.py lines 425-438): `download_artifact_from_maven` returned `False`
(no exception), a `KeyError`/`ValueError` was raised (missing
`lsp/config.yml` archive entry), `ZipFile(jar_file_path)` in
`_copy_lsp_config` raised `BadZipFile` on a malformed downloaded jar (not a
subclass of `KeyError` or `ValueError`, hence uncaught by the caller), or
success with the produced content (the version record is written afterwards
by `_install_version` itself). -/
inductive MavenProducerOutcome (α : Type) where
  | success (content : α)
  | downloadFailed (partialContent : α)
  | raised (partialContent : α)
  | raisedBadZipFile (partialContent : α)
deriving DecidableEq, Repr

/-- Result of one install call: the post-call filesystem slice, the
returned path (`none` is Python `None`), and whether the producer ran and
whether a version record was written during the call. -/
structure InstallResult (α : Type) where
  fs : FSState α
  ret : Option RetPath
  producerRan : Bool
  versionWritten : Bool
deriving DecidableEq, Repr

/-- Embedding of `PypiInstaller._install_latest_version`
(install.py lines 199-220). `empty` is the content of the freshly prepared
engine root after `product_path.mkdir` and `lib.mkdir`. Steps, in source
order: if the engine root exists it is renamed onto the backup path —
`os.rename` raises `OSError` when that destination already exists as a
non-empty directory (the Pypi variant, unlike the Maven one, does not clear
a stale backup first); the fresh root and `lib` are created; the producer
runs; on success the backup (if any) is deleted and the `lib` path
returned; on a caught `CalledProcessError`/`ValueError` the fresh root is
deleted and the backup (if any) renamed back, returning `None`. -/
def pypiInstallLatestVersion {α : Type} (empty : α)
    (producer : α → PypiProducerOutcome α) (fs : FSState α) :
    Except String (InstallResult α) :=
  if fs.root.isSome ∧ fs.backup.isSome then .error "OSError"
  else
    -- after the conditional rename, the prior root (if any) sits at the
    -- backup path; a pre-existing backup survives only when no rename ran
    let movedBackup : Option α := if fs.root.isSome then fs.root else fs.backup
    match producer empty with
    | .success c =>
      .ok ⟨⟨some c, none⟩, some RetPath.libDir, true, true⟩
    | .raised _ =>
      .ok ⟨⟨movedBackup, none⟩, none, true, false⟩

/-- Embedding of `MavenInstaller._install_version`
(install.py lines 399-423). Unlike the Pypi variant it first deletes a
stale backup, so the backup rename cannot collide; on producer success the
version record is written onto the produced content (`withVersion`), the
backup (if any) deleted, and the engine root path returned; on a `False`
download result or a caught `KeyError`/`ValueError` the fresh root is
deleted and the backup (if any) renamed back, returning `None`. A
`BadZipFile` raised on a malformed jar escapes the
`except (KeyError, ValueError)` clause, so neither `rmtree` nor the backup
rename runs: the call propagates the exception, modelled as `.error` paired
with the filesystem it abandons — the partial engine root still in place
alongside the backup. -/
def mavenInstallVersion {α : Type} (empty : α) (withVersion : α → List Char → α)
    (version : List Char) (producer : α → MavenProducerOutcome α) (fs : FSState α) :
    Except (String × FSState α) (InstallResult α) :=
  -- stale backup cleared first, then the prior root (if any) renamed onto it
  let movedBackup : Option α := fs.root
  match producer empty with
  | .success c =>
    .ok ⟨⟨some (withVersion c version), none⟩, some RetPath.rootDir, true, true⟩
  | .downloadFailed _ =>
    .ok ⟨⟨movedBackup, none⟩, none, true, false⟩
  | .raised _ =>
    .ok ⟨⟨movedBackup, none⟩, none, true, false⟩
  | .raisedBadZipFile pc =>
    .error ("BadZipFile", ⟨some pc, movedBackup⟩)

/-- The `get_installed_version` read as seen from the install flow: `None`
when the engine root is absent (no version file), else the version record
read out of the root's content (`none` also covering a corrupt record). -/
def installedVersionOf {α : Type} (versionOf : α → Option (List Char)) (fs : FSState α) :
    Option (List Char) :=
  match fs.root with
  | none => none
  | some d => versionOf d

/-- Embedding of `PypiInstaller._install_checking_versions`
(install.py lines 187-197): `latest` is the result of
`get_pypi_artifact_version`, `versionOf` reads the version record out of an
engine-root content (the `get_installed_version` read, `none` for absent or
corrupt); when the latest version cannot be determined, or equals the
installed one, the call returns `None` with the filesystem untouched;
otherwise it runs `_install_latest_version`. -/
def pypiInstallCheckingVersions {α : Type} (versionOf : α → Option (List Char))
    (latest : Option (List Char)) (empty : α)
    (producer : α → PypiProducerOutcome α) (fs : FSState α) :
    Except String (InstallResult α) :=
  match latest with
  | none => .ok ⟨fs, none, false, false⟩
  | some latestVersion =>
    if installedVersionOf versionOf fs = some latestVersion then .ok ⟨fs, none, false, false⟩
    else pypiInstallLatestVersion empty producer fs

/-- Embedding of `MavenInstaller._install_checking_versions`
(install.py lines 387-397): same shape as the Pypi variant, with
`get_current_maven_artifact_version` supplying `latest`. -/
def mavenInstallCheckingVersions {α : Type} (versionOf : α → Option (List Char))
    (latest : Option (List Char)) (empty : α) (withVersion : α → List Char → α)
    (producer : α → MavenProducerOutcome α) (fs : FSState α) :
    Except (String × FSState α) (InstallResult α) :=
  match latest with
  | none => .ok ⟨fs, none, false, false⟩
  | some latestVersion =>
    if installedVersionOf versionOf fs = some latestVersion then .ok ⟨fs, none, false, false⟩
    else mavenInstallVersion empty withVersion latestVersion producer fs

/-! ## ConfigDiscovery: `TranspilerInstaller._all_transpiler_configs`,
`_transpiler_config`, `all_transpiler_configs`, `all_transpiler_names` and
`transpiler_config_options` (install.py lines 81-138).

The engines root is modelled as `none` (directory absent — the scan yields
nothing) or the ordered `os.listdir` entries, each entry carrying the
outcomes of the filesystem tests `_transpiler_config` performs and of the
`LSPConfig.load` parse. Python `dict` construction and `dict.get` are
modelled by `pyDictGet`, where a later binding of the same key overwrites
an earlier one. -/

/-- `dict.get` over a list of bindings in insertion order, where a later
binding of the same key overwrites an earlier one (Python dict semantics). -/
def pyDictGet {β : Type} (pairs : List (String × β)) (k : String) : Option β :=
  pairs.foldl (fun acc p => if p.1 = k then some p.2 else acc) none

/-- Modelled from the spec: the prompt method of an option descriptor
(`LSPPromptMethod` lives in the `config` module, which is not under
`src/`); spec section 6 gives `method ∈ {force, confirm, question,
choice}`. -/
inductive LSPPromptMethod where
  | force
  | confirm
  | question
  | choice
deriving DecidableEq, Repr

/-- Modelled from the spec: an option descriptor (`LSPConfigOptionV1` lives
in the `config` module, which is not under `src/`); spec section 6 gives
`{flag, prompt, default, method, choices}`. The installer treats these
descriptors as opaque values. -/
structure LSPConfigOptionV1 where
  flag : String
  prompt : String
  default : Option String
  method : LSPPromptMethod
  choices : Option (List String)
deriving DecidableEq, Repr

/-- Modelled from the spec: the engine capability descriptor parsed from
`lib/config.yml` (`LSPConfig` lives in the `lsp_engine` module, which is
not under `src/`); spec section 3 gives `{name, supported dialects,
configurable options keyed by dialect, path}`. -/
structure LSPConfig where
  name : String
  dialects : List String
  options : List (String × List LSPConfigOptionV1)
  path : String
deriving DecidableEq, Repr

/-- One `os.listdir` entry of the engines root, carrying the outcomes of
the tests `_transpiler_config` performs on it: is it a directory, does it
contain a `lib` directory, is `lib/config.yml` a regular file, and what
`LSPConfig.load` yields (`none` models the `ValueError` the loader raises
on unparsable content, which `_transpiler_config` catches and logs). -/
structure EngineDirEntry where
  isDir : Bool
  hasLibDir : Bool
  configIsFile : Bool
  parse : Option LSPConfig
deriving DecidableEq, Repr

/-- Embedding of `TranspilerInstaller._transpiler_config`
(install.py lines 127-138): `None` for a non-directory, an entry without a
`lib` directory or without a `lib/config.yml` regular file, and for a
config that fails to parse (logged, `ValueError` caught); otherwise the
parsed config. -/
def transpiler_config (e : EngineDirEntry) : Option LSPConfig :=
  if !e.isDir || !e.hasLibDir then none
  else if !e.configIsFile then none
  else e.parse

/-- Embedding of `TranspilerInstaller._all_transpiler_configs`
(install.py lines 117-125): nothing when the engines root does not exist,
else the configs of the listed entries in order, skipping those for which
`_transpiler_config` yields `None`. -/
def all_transpiler_configs_list (root : Option (List EngineDirEntry)) : List LSPConfig :=
  match root with
  | none => []
  | some entries => entries.filterMap transpiler_config

/-- Embedding of `TranspilerInstaller.all_transpiler_configs`
(install.py lines 81-84): the dict `{config.name: config}` as its ordered
bindings; reads go through `pyDictGet`. -/
def all_transpiler_configs (root : Option (List EngineDirEntry)) :
    List (String × LSPConfig) :=
  (all_transpiler_configs_list root).map (fun c => (c.name, c))

/-- Embedding of `TranspilerInstaller.all_transpiler_names`
(install.py lines 86-89): the set of dict keys, as a deduplicated list. -/
def all_transpiler_names (root : Option (List EngineDirEntry)) : List String :=
  ((all_transpiler_configs root).map Prod.fst).dedup

/-- Embedding of `TranspilerInstaller.transpiler_config_options`
(install.py lines 110-115): `[]` for an unknown transpiler name, else
`config.options.get(source_dialect, config.options.get("all", []))`. -/
def transpiler_config_options (root : Option (List EngineDirEntry))
    (transpiler_name source_dialect : String) : List LSPConfigOptionV1 :=
  match pyDictGet (all_transpiler_configs root) transpiler_name with
  | none => []
  | some config =>
    (pyDictGet config.options source_dialect).getD
      ((pyDictGet config.options "all").getD [])

end Remorph

/-! ## Theorems for claims C2 and C6 -/

open Remorph

/-- C2 counterexample: the claim says `get_installed_version` "returns absent
rather than raising an error when the record is unreadable or malformed ...
and this holds for any malformed file content"; but on a version file whose
content is not valid JSON, `loads` raises `JSONDecodeError`, which the
function does not catch, so the call raises instead of returning `None`. -/
theorem c2_counterexample :
    get_installed_version VersionFileRead.unparsable = Except.error "JSONDecodeError" := rfl

/-- C2 (amended): `get_installed_version` returns `None` (without raising)
when the version file is absent, when the parsed dict lacks a `"version"`
entry or holds a falsy value there, and when the version string is empty or
does not start with `"v"`; on a well-formed record `"v" + s` it returns `s`.
It does not, however, tolerate arbitrary malformed content: unparsable JSON
raises. -/
theorem c2_amended :
    get_installed_version VersionFileRead.absent = Except.ok none
    ∧ get_installed_version (VersionFileRead.parsed none) = Except.ok none
    ∧ get_installed_version (VersionFileRead.parsed (some VersionFieldValue.falsyNonStr))
        = Except.ok none
    ∧ (∀ s : List Char, s ≠ [] → s.head? ≠ some 'v' →
        get_installed_version (VersionFileRead.parsed (some (VersionFieldValue.str s)))
          = Except.ok none)
    ∧ (∀ s : List Char,
        get_installed_version (VersionFileRead.parsed (some (VersionFieldValue.str ('v' :: s))))
          = Except.ok (some s)) := by
  refine ⟨rfl, rfl, rfl, ?_, ?_⟩
  · intro s hne hnv
    simp [get_installed_version, hne, hnv]
  · intro s
    simp [get_installed_version]

/-- Witness for C2 (amended), at the concrete malformed record
`{"version": "1.2.3"}` (no leading `"v"`) and the well-formed record
`{"version": "v1.2.3"}`. -/
theorem c2_amended_witness :
    get_installed_version
        (VersionFileRead.parsed (some (VersionFieldValue.str "1.2.3".toList)))
      = Except.ok none
    ∧ get_installed_version
        (VersionFileRead.parsed (some (VersionFieldValue.str ('v' :: "1.2.3".toList))))
      = Except.ok (some "1.2.3".toList) :=
  ⟨c2_amended.2.2.2.1 "1.2.3".toList (by decide) (by decide),
   c2_amended.2.2.2.2 "1.2.3".toList⟩

/-- C6: write/read round-trip. When the state directory does not yet exist,
`_store_product_state` writes a record whose `"version"` entry is
`"v" + version`, and `get_installed_version` reading that record strips the
leading `"v"` marker and returns exactly `version`. -/
theorem c6_version_roundtrip (v : List Char) :
    (store_product_state false v).bind get_installed_version = Except.ok (some v) := by
  simp [store_product_state, Except.bind, get_installed_version]

/-! ## Theorems for claims C3, C4 and C7 -/

/-- C3: Maven version resolution follows the priority order release, then
latest, then the last version under versions, returning absent when none is
present; on metadata listing only versions 1.0 and 2.0 it returns "2.0". -/
theorem c3_maven_version_selection :
    (∀ (root : XmlElem) (v : String),
        findtext root ["versioning", "release"] = some v →
        extract_latest_release_version root = some v)
    ∧ (∀ (root : XmlElem) (v : String),
        findtext root ["versioning", "release"] = none →
        findtext root ["versioning", "latest"] = some v →
        extract_latest_release_version root = some v)
    ∧ (∀ root : XmlElem,
        findtext root ["versioning", "release"] = none →
        findtext root ["versioning", "latest"] = none →
        extract_latest_release_version root = findtextLastVersion root)
    ∧ extract_latest_release_version exampleVersionsOnlyMetadata = some "2.0" := by
  refine ⟨?_, ?_, ?_, ?_⟩
  · intro root v h
    simp [extract_latest_release_version, h]
  · intro root v h1 h2
    simp [extract_latest_release_version, h1, h2]
  · intro root h1 h2
    simp [extract_latest_release_version, h1, h2]
  · rfl

/-- Witness for C3: applying the fallback cases at concrete documents — a
latest-only document resolves to "3.1" via the second branch, and the
versions-only document resolves to "2.0". -/
theorem c3_maven_version_selection_witness :
    extract_latest_release_version exampleLatestOnlyMetadata = some "3.1"
    ∧ extract_latest_release_version exampleVersionsOnlyMetadata = some "2.0" :=
  ⟨c3_maven_version_selection.2.1 exampleLatestOnlyMetadata "3.1" rfl rfl,
   c3_maven_version_selection.2.2.2⟩

/-- C4 counterexample: the claim says the PyPI latest-version lookup
"returns absent on any transport or not-found error and never raises to the
caller"; but only `HTTPError` is caught, so a non-HTTP transport failure
(`urlopen` raising a plain `URLError`) propagates to the caller instead of
yielding absent. -/
theorem c4_counterexample :
    get_pypi_artifact_version PypiFetchOutcome.transportError = Except.error "URLError" := rfl

/-- C4 (amended): the PyPI latest-version lookup returns absent on an HTTP
error response (including not-found), and on a successful response returns
the `info.version` field (absent when missing); but a non-HTTP transport
error, an unparsable body, or an unexpected JSON shape raises to the
caller. -/
theorem c4_amended :
    get_pypi_artifact_version PypiFetchOutcome.httpError = Except.ok none
    ∧ (∀ v : Option (List Char),
        get_pypi_artifact_version (PypiFetchOutcome.ok (PypiBody.parsed v)) = Except.ok v)
    ∧ get_pypi_artifact_version PypiFetchOutcome.transportError = Except.error "URLError"
    ∧ get_pypi_artifact_version (PypiFetchOutcome.ok PypiBody.unparsable)
        = Except.error "JSONDecodeError" :=
  ⟨rfl, fun _ => rfl, rfl, rfl⟩

/-- C7: `download_artifact_from_maven` is an idempotent skip returning
success and performing no download action when the target already exists;
otherwise it retrieves the artifact and moves it into place returning
success, and returns false (without raising) when the retrieval fails. -/
theorem c7_maven_download :
    (∀ fetch : UrlretrieveOutcome, download_artifact_from_maven true fetch = (true, []))
    ∧ download_artifact_from_maven false UrlretrieveOutcome.ok
        = (true, [DlAction.retrieved, DlAction.moved])
    ∧ download_artifact_from_maven false UrlretrieveOutcome.urlError
        = (false, [DlAction.retrieved]) :=
  ⟨fun _ => rfl, rfl, rfl⟩

/-! ## Theorems for claims C1, C5 and C10.

The pre-call states considered are the steady states of the spec's data
model: no leftover backup directory (`pre.backup = none`). For the Pypi
variant this also rules out the `os.rename` collision with a stale backup,
so the call returns normally; the Maven variant clears a stale backup
itself. -/

/-- C1 counterexample: the claim says every producer failure after the
backup/prepare phase rolls back and "returns absent without raising", so
that afterwards the filesystem never holds a partial directory nor both the
engine root and the backup directory. But a malformed downloaded jar makes
`ZipFile` raise `BadZipFile` inside the Maven producer, which the
`except (KeyError, ValueError)` clause of `_install_version` does not
catch: at pre-call root content `5` and partial producer content `7`, the
call raises, the partial engine root is not deleted and the backup is not
renamed back — both directories remain. -/
theorem c1_counterexample :
    mavenInstallVersion (α := Nat) 0 (fun c _ => c) "1.0".toList
        (fun _ => MavenProducerOutcome.raisedBadZipFile 7) ⟨some 5, none⟩ =
      Except.error ("BadZipFile", ⟨some 7, some 5⟩)
    ∧ (⟨some 7, some 5⟩ : FSState Nat).root.isSome = true
    ∧ (⟨some 7, some 5⟩ : FSState Nat).backup.isSome = true :=
  ⟨rfl, rfl, rfl⟩

/-- C1 (amended): for the producer failures the install call catches —
`CalledProcessError`/`ValueError` for the Pypi variant, a `False` download
result or `KeyError`/`ValueError` for the Maven variant — the call deletes
the fresh engine root, renames the backup (if one exists) back, and
returns `None` without raising; and after any install call that completes
normally the filesystem holds either the newly installed engine or exactly
the pre-call state, with no backup directory remaining. (A `BadZipFile`
from a malformed jar escapes the Maven variant's catch set and aborts the
call without rollback.) -/
theorem c1_amended_rollback :
    ∀ (α : Type) (empty : α) (pre : FSState α), pre.backup = none →
    (∀ (producer : α → PypiProducerOutcome α) (pc : α),
        producer empty = PypiProducerOutcome.raised pc →
        pypiInstallLatestVersion empty producer pre =
          Except.ok ⟨pre, none, true, false⟩)
    ∧ (∀ (withVersion : α → List Char → α) (version : List Char)
          (producer : α → MavenProducerOutcome α) (pc : α),
        producer empty = MavenProducerOutcome.downloadFailed pc ∨
          producer empty = MavenProducerOutcome.raised pc →
        mavenInstallVersion empty withVersion version producer pre =
          Except.ok ⟨pre, none, true, false⟩)
    ∧ (∀ (producer : α → PypiProducerOutcome α) (r : InstallResult α),
        pypiInstallLatestVersion empty producer pre = Except.ok r →
        r.fs.backup = none ∧
          (r.fs = pre ∨ ∃ c, producer empty = PypiProducerOutcome.success c ∧
            r.fs.root = some c))
    ∧ (∀ (withVersion : α → List Char → α) (version : List Char)
          (producer : α → MavenProducerOutcome α) (r : InstallResult α),
        mavenInstallVersion empty withVersion version producer pre = Except.ok r →
        r.fs.backup = none ∧
          (r.fs = pre ∨ ∃ c, producer empty = MavenProducerOutcome.success c ∧
            r.fs.root = some (withVersion c version))) := by
  intro α empty pre hb
  obtain ⟨r, b⟩ := pre
  simp only [FSState.backup] at hb
  subst hb
  refine ⟨?_, ?_, ?_, ?_⟩
  · intro producer pc hp
    cases r <;> simp [pypiInstallLatestVersion, hp]
  · intro withVersion version producer pc hp
    rcases hp with hp | hp <;> cases r <;> simp [mavenInstallVersion, hp]
  · intro producer res hres
    cases hpe : producer empty with
    | success c =>
      cases r <;>
        · simp [pypiInstallLatestVersion, hpe] at hres
          subst hres
          exact ⟨rfl, Or.inr ⟨c, rfl, rfl⟩⟩
    | raised pc =>
      cases r <;>
        · simp [pypiInstallLatestVersion, hpe] at hres
          subst hres
          exact ⟨rfl, Or.inl rfl⟩
  · intro withVersion version producer res hres
    cases hpe : producer empty with
    | success c =>
      cases r <;>
        · simp [mavenInstallVersion, hpe] at hres
          subst hres
          exact ⟨rfl, Or.inr ⟨c, rfl, rfl⟩⟩
    | downloadFailed pc =>
      cases r <;>
        · simp [mavenInstallVersion, hpe] at hres
          subst hres
          exact ⟨rfl, Or.inl rfl⟩
    | raised pc =>
      cases r <;>
        · simp [mavenInstallVersion, hpe] at hres
          subst hres
          exact ⟨rfl, Or.inl rfl⟩
    | raisedBadZipFile pc =>
      cases r <;> simp [mavenInstallVersion, hpe] at hres

/-- Witness for C1 (amended): a concrete Maven install over content ids
drawn from `Nat`, pre-call root content `5`, producer raising a caught
`KeyError`/`ValueError` with partial content `7`: the call returns `.ok`
with the pre-call filesystem restored and no path returned. -/
theorem c1_amended_rollback_witness :
    mavenInstallVersion (α := Nat) 0 (fun c _ => c) "1.0".toList
        (fun _ => MavenProducerOutcome.raised 7) ⟨some 5, none⟩ =
      Except.ok ⟨⟨some 5, none⟩, none, true, false⟩ :=
  (c1_amended_rollback Nat 0 ⟨some 5, none⟩ rfl).2.1
    (fun c _ => c) "1.0".toList (fun _ => MavenProducerOutcome.raised 7) 7 (Or.inr rfl)

/-- C5: when the recorded installed version equals the latest version
resolved from the registry, both install variants are a no-op: the
filesystem is returned unchanged, no path is returned, the producer (hence
no download) never runs, and no version record is written. -/
theorem c5_idempotent_reinstall :
    ∀ (α : Type) (versionOf : α → Option (List Char)) (v : List Char)
      (d : α) (empty : α) (fs : FSState α),
      fs.root = some d → versionOf d = some v →
      (∀ producer : α → PypiProducerOutcome α,
        pypiInstallCheckingVersions versionOf (some v) empty producer fs =
          Except.ok ⟨fs, none, false, false⟩)
      ∧ (∀ (withVersion : α → List Char → α) (producer : α → MavenProducerOutcome α),
        mavenInstallCheckingVersions versionOf (some v) empty withVersion producer fs =
          Except.ok ⟨fs, none, false, false⟩) := by
  intro α versionOf v d empty fs hroot hver
  have hinst : installedVersionOf versionOf fs = some v := by
    simp [installedVersionOf, hroot, hver]
  constructor
  · intro producer
    simp [pypiInstallCheckingVersions, hinst]
  · intro withVersion producer
    simp [mavenInstallCheckingVersions, hinst]

/-- Witness for C5: content ids drawn from `Nat`, an engine root with
content `3` recording version `"1.0"`, and the registry reporting the same
`"1.0"`: the Pypi install call returns the filesystem unchanged with no
producer run. -/
theorem c5_idempotent_reinstall_witness :
    pypiInstallCheckingVersions (α := Nat) (fun _ => some "1.0".toList)
        (some "1.0".toList) 0 (fun _ => PypiProducerOutcome.raised 7) ⟨some 3, none⟩ =
      Except.ok ⟨⟨some 3, none⟩, none, false, false⟩ :=
  (c5_idempotent_reinstall Nat (fun _ => some "1.0".toList) "1.0".toList 3 0
      ⟨some 3, none⟩ rfl rfl).1
    (fun _ => PypiProducerOutcome.raised 7)

/-- C10: for both public install operations, the returned value is `None`
when the latest version cannot be resolved, when the engine is already at
the latest version, and when the producer fails; a path is returned exactly
when the latest version was resolved, differs from the installed one, and
the producer succeeded — in which case the call also wrote a version
record (a new version was actually installed). -/
theorem c10_return_value_ambiguity :
    ∀ (α : Type) (versionOf : α → Option (List Char)) (latest : Option (List Char))
      (empty : α) (fs : FSState α), fs.backup = none →
    (∀ (producer : α → PypiProducerOutcome α) (r : InstallResult α),
        pypiInstallCheckingVersions versionOf latest empty producer fs = Except.ok r →
        ((r.ret.isSome ↔ ∃ lv, latest = some lv
            ∧ installedVersionOf versionOf fs ≠ some lv
            ∧ ∃ c, producer empty = PypiProducerOutcome.success c)
          ∧ (r.ret.isSome → r.versionWritten = true)))
    ∧ (∀ (withVersion : α → List Char → α) (producer : α → MavenProducerOutcome α)
          (r : InstallResult α),
        mavenInstallCheckingVersions versionOf latest empty withVersion producer fs =
          Except.ok r →
        ((r.ret.isSome ↔ ∃ lv, latest = some lv
            ∧ installedVersionOf versionOf fs ≠ some lv
            ∧ ∃ c, producer empty = MavenProducerOutcome.success c)
          ∧ (r.ret.isSome → r.versionWritten = true))) := by
  intro α versionOf latest empty fs hb
  constructor
  · intro producer r hr
    cases latest with
    | none =>
      simp [pypiInstallCheckingVersions] at hr
      subst hr
      simp
    | some lv =>
      by_cases hinst : installedVersionOf versionOf fs = some lv
      · simp [pypiInstallCheckingVersions, hinst] at hr
        subst hr
        simp [hinst]
      · simp [pypiInstallCheckingVersions, hinst] at hr
        cases hpe : producer empty with
        | success c =>
          obtain ⟨rr, bb⟩ := fs
          simp only [FSState.backup] at hb
          subst hb
          cases rr <;>
            · simp [pypiInstallLatestVersion, hpe] at hr
              subst hr
              simp [hinst, hpe]
        | raised pc =>
          obtain ⟨rr, bb⟩ := fs
          simp only [FSState.backup] at hb
          subst hb
          cases rr <;>
            · simp [pypiInstallLatestVersion, hpe] at hr
              subst hr
              simp [hinst, hpe]
  · intro withVersion producer r hr
    cases latest with
    | none =>
      simp [mavenInstallCheckingVersions] at hr
      subst hr
      simp
    | some lv =>
      by_cases hinst : installedVersionOf versionOf fs = some lv
      · simp [mavenInstallCheckingVersions, hinst] at hr
        subst hr
        simp [hinst]
      · simp [mavenInstallCheckingVersions, hinst] at hr
        cases hpe : producer empty with
        | success c =>
          simp [mavenInstallVersion, hpe] at hr
          subst hr
          simp [hinst, hpe]
        | downloadFailed pc =>
          simp [mavenInstallVersion, hpe] at hr
          subst hr
          simp [hinst, hpe]
        | raised pc =>
          simp [mavenInstallVersion, hpe] at hr
          subst hr
          simp [hinst, hpe]
        | raisedBadZipFile pc =>
          simp [mavenInstallVersion, hpe] at hr

/-- Witness for C10: content ids drawn from `Nat`, an empty pre-call
filesystem, registry latest `"2.0"`, and a Pypi producer succeeding with
content `9`: the call returns a path, and the iff instantiates to a true
statement whose right-hand side holds. -/
theorem c10_return_value_ambiguity_witness :
    (Except.ok (⟨⟨some 9, none⟩, some RetPath.libDir, true, true⟩ : InstallResult Nat) :
        Except String (InstallResult Nat)).isOk
    ∧ ((some RetPath.libDir).isSome ↔ ∃ lv, (some "2.0".toList : Option (List Char)) = some lv
        ∧ installedVersionOf (α := Nat) (fun _ => none) ⟨none, none⟩ ≠ some lv
        ∧ ∃ c, (fun _ : Nat => PypiProducerOutcome.success 9) 0 =
            PypiProducerOutcome.success c) := by
  refine ⟨rfl, ?_⟩
  have h := (c10_return_value_ambiguity Nat (fun _ => none) (some "2.0".toList) 0
      ⟨none, none⟩ rfl).1 (fun _ => PypiProducerOutcome.success 9)
      ⟨⟨some 9, none⟩, some RetPath.libDir, true, true⟩
      (by simp [pypiInstallCheckingVersions, installedVersionOf, pypiInstallLatestVersion])
  exact h.1

/-! ## Theorems for claims C8 and C9 -/

/-- Concrete option descriptors and engine config used to exercise
discovery and option lookup. -/
def exampleOptionA : LSPConfigOptionV1 :=
  ⟨"-experimental", "Use experimental mode?", some "false", LSPPromptMethod.confirm, none⟩

/-- A second concrete option descriptor, bound to the `"all"` dialect key. -/
def exampleOptionB : LSPConfigOptionV1 :=
  ⟨"-target", "Target version", none, LSPPromptMethod.question, none⟩

/-- A well-formed engine config: dialect-specific options for
`"snowflake"`, a fallback under `"all"`. -/
def exampleGoodConfig : LSPConfig :=
  ⟨"good-engine", ["snowflake", "oracle"],
    [("snowflake", [exampleOptionA]), ("all", [exampleOptionB])],
    "good-engine/lib/config.yml"⟩

/-- An engines-root entry that is a directory without a `lib` subdirectory. -/
def exampleNoLibEntry : EngineDirEntry := ⟨true, false, false, none⟩

/-- An engines-root entry whose `lib/config.yml` exists but fails to parse. -/
def exampleUnparsableEntry : EngineDirEntry := ⟨true, true, true, none⟩

/-- An engines-root entry holding `exampleGoodConfig`. -/
def exampleGoodEntry : EngineDirEntry := ⟨true, true, true, some exampleGoodConfig⟩

/-- `_transpiler_config` yields a config exactly for a directory entry with
a `lib` directory and a `lib/config.yml` regular file that parses. -/
theorem transpiler_config_eq_some_iff (e : EngineDirEntry) (cfg : LSPConfig) :
    transpiler_config e = some cfg ↔
      e.isDir = true ∧ e.hasLibDir = true ∧ e.configIsFile = true ∧ e.parse = some cfg := by
  cases hd : e.isDir <;> cases hl : e.hasLibDir <;> cases hc : e.configIsFile <;>
    simp [transpiler_config, hd, hl, hc]

/-- C8: discovery enumerates exactly the listed entries that are
directories containing a `lib` subdirectory whose `config.yml` is a regular
file and parses; entries missing `lib` or `config.yml` are skipped, and an
unparsable sibling is excluded without aborting the scan — the good entry
listed after it is still discovered, and `all_transpiler_names` omits the
bad entries. -/
theorem c8_discovery_filter :
    (∀ (entries : List EngineDirEntry) (cfg : LSPConfig),
        cfg ∈ all_transpiler_configs_list (some entries) ↔
          ∃ e ∈ entries, e.isDir = true ∧ e.hasLibDir = true ∧ e.configIsFile = true
            ∧ e.parse = some cfg)
    ∧ all_transpiler_configs_list none = []
    ∧ all_transpiler_configs_list
        (some [exampleNoLibEntry, exampleUnparsableEntry, exampleGoodEntry])
        = [exampleGoodConfig]
    ∧ all_transpiler_names
        (some [exampleNoLibEntry, exampleUnparsableEntry, exampleGoodEntry])
        = ["good-engine"] := by
  refine ⟨?_, rfl, rfl, ?_⟩
  · intro entries cfg
    simp only [all_transpiler_configs_list, List.mem_filterMap,
      transpiler_config_eq_some_iff]
  · decide

/-- Witness for C8: the iff applied at the concrete three-entry root and
`exampleGoodConfig`, discharged rightward with the good entry itself. -/
theorem c8_discovery_filter_witness :
    exampleGoodConfig ∈ all_transpiler_configs_list
      (some [exampleNoLibEntry, exampleUnparsableEntry, exampleGoodEntry]) :=
  (c8_discovery_filter.1 [exampleNoLibEntry, exampleUnparsableEntry, exampleGoodEntry]
      exampleGoodConfig).mpr
    ⟨exampleGoodEntry, by decide, rfl, rfl, rfl, rfl⟩

/-- C9: for a transpiler name bound in the discovered-config dict,
`transpiler_config_options` returns the dialect-specific option sequence
when that dialect is a key of the config's options mapping, else the
sequence under `"all"` when that key exists, else the empty sequence. -/
theorem c9_options_fallback :
    ∀ (root : Option (List EngineDirEntry)) (name dialect : String) (config : LSPConfig),
      pyDictGet (all_transpiler_configs root) name = some config →
      (∀ opts, pyDictGet config.options dialect = some opts →
          transpiler_config_options root name dialect = opts)
      ∧ (∀ opts, pyDictGet config.options dialect = none →
          pyDictGet config.options "all" = some opts →
          transpiler_config_options root name dialect = opts)
      ∧ (pyDictGet config.options dialect = none →
          pyDictGet config.options "all" = none →
          transpiler_config_options root name dialect = []) := by
  intro root name dialect config hconf
  refine ⟨?_, ?_, ?_⟩
  · intro opts hd
    simp [transpiler_config_options, hconf, hd]
  · intro opts hd hall
    simp [transpiler_config_options, hconf, hd, hall]
  · intro hd hall
    simp [transpiler_config_options, hconf, hd, hall]

/-- Witness for C9: on the concrete discovered root, `"good-engine"` with
dialect `"snowflake"` takes the dialect-specific branch, and with dialect
`"teradata"` falls back to the `"all"` entry. -/
theorem c9_options_fallback_witness :
    transpiler_config_options (some [exampleGoodEntry]) "good-engine" "snowflake"
        = [exampleOptionA]
    ∧ transpiler_config_options (some [exampleGoodEntry]) "good-engine" "teradata"
        = [exampleOptionB] :=
  ⟨(c9_options_fallback (some [exampleGoodEntry]) "good-engine" "snowflake"
      exampleGoodConfig (by decide)).1 [exampleOptionA] (by decide),
   (c9_options_fallback (some [exampleGoodEntry]) "good-engine" "teradata"
      exampleGoodConfig (by decide)).2.1 [exampleOptionB] (by decide) (by decide)⟩
